import Mathlib

/-!
# Verification of `jax-haiku-dask-dataframe-distributed-example.ipynb`

Shallow embedding of the notebook's glue code and training loops.  Floating
point numerics are idealized over the real numbers, the standard idealization
for verifying numerical code.  Arrays of shape `[m, 1]` (one feature per row)
are modelled as functions `Fin m → ℝ`, and the pytree of network parameters
(and likewise gradients, updates, and Adam moment estimates) as a function
`ι → ℝ` over an abstract leaf-index type `ι`, on which the optimizer acts
elementwise exactly as `jax.experimental.optix` does.

The repository's own code calls into external libraries; the library calls it
uses are embedded from the libraries' documented behaviour:
`optix.adam(learning_rate=1e-3)` (with its default `b1=0.9`, `b2=0.999`,
`eps=1e-8`), `optix.apply_updates`, `np.linspace`, `np.sin`, `jnp.average`,
`pandas.DataFrame.sample` / `drop`, and `dask.dataframe.from_pandas` with a
`chunksize`.  The network forward pass `net_transform.apply` and the gradient
`jax.grad(loss_function)` are kept as abstract functions, since the claims
under verification only concern how the notebook composes them.
-/

namespace JaxDaskNotebook

/-! ## The optimizer: `optix.adam(learning_rate=1e-3)`

`optix.adam(lr)` is `combine(scale_by_adam(b1=0.9, b2=0.999, eps=1e-8),
scale(-lr))`.  Its state is `ScaleByAdamState(count, mu, nu)`; `init` zeroes
the moments (`zeros_like(params)`), and each update refreshes the two moment
estimates, increments the count, bias-corrects, and emits
`-lr * mu_hat / (sqrt(nu_hat) + eps)` as the additive update. -/

noncomputable def adam_b1 : ℝ := 9 / 10

noncomputable def adam_b2 : ℝ := 999 / 1000

noncomputable def adam_eps : ℝ := 1 / 100000000

noncomputable def adam_learning_rate : ℝ := 1 / 1000

/-- `optix.ScaleByAdamState`: step count and first/second moment estimates,
one real per parameter leaf. -/
structure ScaleByAdamState (ι : Type) where
  count : ℕ
  mu : ι → ℝ
  nu : ι → ℝ

/-- `optix._update_moment(updates, moments, decay, order)`:
`(1 - decay) * (updates ** order) + decay * moments`, elementwise. -/
def update_moment {ι : Type} (g moments : ι → ℝ) (decay : ℝ) (order : ℕ) : ι → ℝ :=
  fun i => (1 - decay) * g i ^ order + decay * moments i

/-- The update function of `optix.scale_by_adam(b1=0.9, b2=0.999, eps=1e-8)`:
returns the transformed updates and the new state. -/
noncomputable def scale_by_adam_update {ι : Type} (g : ι → ℝ) (s : ScaleByAdamState ι) :
    (ι → ℝ) × ScaleByAdamState ι :=
  let mu := update_moment g s.mu adam_b1 1
  let nu := update_moment g s.nu adam_b2 2
  let count := s.count + 1
  let mu_hat := fun i => mu i / (1 - adam_b1 ^ count)
  let nu_hat := fun i => nu i / (1 - adam_b2 ^ count)
  (fun i => mu_hat i / (Real.sqrt (nu_hat i) + adam_eps), ⟨count, mu, nu⟩)

/-- `optimizer.update(grads, opt_state)` for
`optimizer = optix.adam(learning_rate=1e-3)`: `scale_by_adam` followed by
`scale(-learning_rate)`. -/
noncomputable def adam_update {ι : Type} (g : ι → ℝ) (s : ScaleByAdamState ι) :
    (ι → ℝ) × ScaleByAdamState ι :=
  let us := scale_by_adam_update g s
  (fun i => -adam_learning_rate * us.1 i, us.2)

/-- `optimizer.init(params)`: zero moments, zero count. -/
def adam_init {ι : Type} (_params : ι → ℝ) : ScaleByAdamState ι :=
  ⟨0, fun _ => 0, fun _ => 0⟩

/-- `optix.apply_updates(params, updates)`: elementwise addition. -/
def apply_updates {ι : Type} (params updates : ι → ℝ) : ι → ℝ :=
  fun i => params i + updates i

/-! ## The dataset: `x = np.linspace(0, 2*np.pi, 50)`, `y = np.sin(x)` -/

def num_points : ℕ := 50

/-- `np.linspace(start, stop, num)` with the default inclusive endpoint:
`num` samples `start + i * (stop - start) / (num - 1)`. -/
noncomputable def np_linspace (start stop : ℝ) (num : ℕ) : Fin num → ℝ :=
  fun i => start + (i : ℕ) * (stop - start) / ((num : ℝ) - 1)

/-- The `x` column of `df_all`. -/
noncomputable def x_data : Fin num_points → ℝ :=
  np_linspace 0 (2 * Real.pi) num_points

/-- The `y` column of `df_all`: `np.sin(x)`, rowwise. -/
noncomputable def y_data : Fin num_points → ℝ :=
  fun i => Real.sin (x_data i)

/-- `df_all`: the 50-row table of `(x, y)` pairs. -/
noncomputable def df_all : Fin num_points → ℝ × ℝ :=
  fun i => (x_data i, y_data i)

/-! ## The train/validation split

`df_train = df_all.sample(frac=0.8, random_state=42)` selects
`round(frac * len(df_all))` distinct row labels (the selection itself is
pseudo-random, so the selected label set enters as a parameter `S` whose
cardinality the library fixes); `df_validation = df_all.drop(df_train.index)`
keeps exactly the unselected labels. -/

/-- Number of rows drawn by `DataFrame.sample(frac=...)` on an `n`-row frame:
`round(frac * n)`. -/
def pandas_sample_size (n : ℕ) (frac : ℚ) : ℕ :=
  (round (frac * n) : ℤ).toNat

/-- `df_all.drop(labels=df_train.index)`: the rows whose label is not in the
sampled train label set. -/
def df_validation_index (trainIdx : Finset (Fin num_points)) : Finset (Fin num_points) :=
  Finset.univ \ trainIdx

/-! ## Dask partitioning: `dd.from_pandas(df, chunksize=batch_size)`

`from_pandas` with a `chunksize` cuts the `n`-row frame at row offsets
`0, chunksize, 2*chunksize, ...`, so every partition has `chunksize` rows
except a final remainder partition. -/

def batch_size : ℕ := 32

/-- The list of partition row-counts produced by
`dd.from_pandas(df, chunksize=c)` on an `n`-row dataframe. -/
def from_pandas_partition_sizes (n c : ℕ) : List ℕ :=
  List.replicate (n / c) c ++ (if n % c = 0 then [] else [n % c])

example : from_pandas_partition_sizes 40 32 = [32, 8] := by decide

example : from_pandas_partition_sizes 10 32 = [10] := by decide

example : pandas_sample_size 50 (4 / 5) = 40 := by
  norm_num [pandas_sample_size]
  rfl

/-! ## Dataframe partitions

A partition of the (train or validation) Dask dataframe, as the notebook's
per-partition functions see it: `m` rows with columns `x`, `scaled_x`
(the standardized feature added via `StandardScaler`) and `y`. -/

structure Partition where
  m : ℕ
  x : Fin m → ℝ
  scaled_x : Fin m → ℝ
  y : Fin m → ℝ

/-- `dask_ml.preprocessing.StandardScaler.transform` on one value:
subtract the fitted mean, divide by the fitted standard deviation. -/
noncomputable def standard_scaler_transform (mean std v : ℝ) : ℝ :=
  (v - mean) / std

/-! ## The notebook's glue functions

The network forward pass `net_transform.apply(params, x)` on an `[m, 1]`
input batch and the gradient `jax.grad(loss_function)(params, x, y)` are the
two library-provided computations the notebook composes; both are abstract
here (section variables `net_apply` and `grad_loss_function`). -/

section Network

variable {ι : Type}
variable (net_apply : (ι → ℝ) → (m : ℕ) → (Fin m → ℝ) → Fin m → ℝ)
variable (grad_loss_function : (ι → ℝ) → (m : ℕ) → (Fin m → ℝ) → (Fin m → ℝ) → ι → ℝ)

/-- `jnp.average(v)`: arithmetic mean of the entries. -/
noncomputable def jnp_average (m : ℕ) (v : Fin m → ℝ) : ℝ :=
  (∑ i, v i) / m

/-- The inner `mean_squared_error(y_true, y_pred)` of `loss_function`:
`jnp.average((y_true - y_pred) ** 2)`. -/
noncomputable def mean_squared_error (m : ℕ) (y_true y_pred : Fin m → ℝ) : ℝ :=
  jnp_average m (fun i => (y_true i - y_pred i) ^ 2)

/-- `loss_function(params, x, y_true)`:
`mean_squared_error(y_true, net_transform.apply(params, x))`. -/
noncomputable def loss_function (params : ι → ℝ) (m : ℕ) (x y_true : Fin m → ℝ) : ℝ :=
  mean_squared_error m y_true (net_apply params m x)

/-- `predict(params, x)`: `net_transform.apply(params, x)`. -/
noncomputable def predict (params : ι → ℝ) (m : ℕ) (x : Fin m → ℝ) : Fin m → ℝ :=
  net_apply params m x

/-- `dask_predict_wrapper(df, params)`: applies `predict` to the partition's
`scaled_x` column (`df[["scaled_x"]].values`) and flattens the `[m, 1]`
result to one prediction per row. -/
noncomputable def dask_predict_wrapper (df : Partition) (params : ι → ℝ) : Fin df.m → ℝ :=
  predict net_apply params df.m df.scaled_x

/-- `initialize_net_function()`: transforms the network and initializes its
parameters with `rng = jax.random.PRNGKey(42)` on a random example input of
shape `[batch_size, 1]`.  Haiku's `Transformed.init` reads the example input
only through its shape for this stack of `hk.Linear`/`relu` layers, so the
embedding of `net_transform.init` is a function `net_transform_init` of the
PRNG seed and the input shape; the pseudo-random `example_x` contributes
exactly its shape `(batch_size, 1)`. -/
noncomputable def initialize_net_function
    (net_transform_init : ℕ → ℕ → ℕ → ι → ℝ)
    (example_x : Fin batch_size → Fin 1 → ℝ) : ι → ℝ :=
  net_transform_init 42 batch_size 1

/-! ## CASE 1 — Dask as a lazy loader of data -/

/-- `update(params, opt_state, x, y)`: gradient of the loss at the current
parameters, one `optimizer.update`, one `optix.apply_updates`. -/
noncomputable def update (params : ι → ℝ) (opt_state : ScaleByAdamState ι)
    {m : ℕ} (x y : Fin m → ℝ) : (ι → ℝ) × ScaleByAdamState ι :=
  let grads := grad_loss_function params m x y
  let us := adam_update grads opt_state
  (apply_updates params us.1, us.2)

/-- The body of CASE 1's inner loop: materialize one partition
(`.compute()`), take its `scaled_x` and `y` columns, run `update`. -/
noncomputable def case1_process_partition
    (st : (ι → ℝ) × ScaleByAdamState ι) (df : Partition) :
    (ι → ℝ) × ScaleByAdamState ι :=
  update grad_loss_function st.1 st.2 df.scaled_x df.y

/-- One CASE 1 epoch: the inner `for ddf_one_partition in ddf_train.partitions`
loop, over the partitions in order. -/
noncomputable def case1_epoch (batches : List Partition)
    (st : (ι → ℝ) × ScaleByAdamState ι) : (ι → ℝ) × ScaleByAdamState ι :=
  batches.foldl (case1_process_partition grad_loss_function) st

/-- The CASE 1 training loop: `for epoch_number in range(epochs)` around
`case1_epoch`. -/
noncomputable def case1_train (batches : List Partition) :
    ℕ → (ι → ℝ) × ScaleByAdamState ι → (ι → ℝ) × ScaleByAdamState ι
  | 0, st => st
  | n + 1, st => case1_train batches n (case1_epoch grad_loss_function batches st)

/-! ## CASE 2 — per-batch gradients on workers, aggregation on the client -/

/-- `compute_grads(params, x, y)`: `jax.grad(loss_function)(params, x, y)`. -/
noncomputable def compute_grads (params : ι → ℝ) (m : ℕ) (x y : Fin m → ℝ) : ι → ℝ :=
  grad_loss_function params m x y

/-- `dask_compute_grads_one_partition_wrapper(ddf, params)`: `compute_grads`
on the partition's `scaled_x` and `y` columns. -/
noncomputable def dask_compute_grads_one_partition_wrapper
    (df : Partition) (params : ι → ℝ) : ι → ℝ :=
  compute_grads grad_loss_function params df.m df.scaled_x df.y

/-- The futures submitted in one CASE 2 epoch: the whole
`for ddf_one_partition in ddf_train.partitions: futures.append(client.submit(...))`
loop runs before any result is consumed, so every task carries the same
`params` — the value the model had at the start of the epoch. -/
noncomputable def case2_epoch_futures (batches : List Partition) (params : ι → ℝ) :
    List (ι → ℝ) :=
  batches.map (fun df => dask_compute_grads_one_partition_wrapper grad_loss_function df params)

/-- The body of CASE 2's `as_completed` loop, for one received gradient:
one `optimizer.update`, one `optix.apply_updates`, on the client. -/
noncomputable def case2_client_update (st : (ι → ℝ) × ScaleByAdamState ι)
    (grads : ι → ℝ) : (ι → ℝ) × ScaleByAdamState ι :=
  let us := adam_update grads st.2
  (apply_updates st.1 us.1, us.2)

/-- One CASE 2 epoch.  `as_completed(futures, with_results=True)` yields the
submitted gradients in whatever order the cluster finishes them; that order
is the parameter `completion_order`, a reordering of the futures list. -/
noncomputable def case2_epoch
    (completion_order : List (ι → ℝ) → List (ι → ℝ))
    (batches : List Partition)
    (st : (ι → ℝ) × ScaleByAdamState ι) : (ι → ℝ) × ScaleByAdamState ι :=
  (completion_order (case2_epoch_futures grad_loss_function batches st.1)).foldl
    case2_client_update st

/-- The aggregation step exactly as the spec describes it: fold over the
received per-batch gradients, applying to each one optimizer update and one
parameter update on the client. -/
noncomputable def client_aggregate (gs : List (ι → ℝ))
    (st : (ι → ℝ) × ScaleByAdamState ι) : (ι → ℝ) × ScaleByAdamState ι :=
  gs.foldl (fun st g =>
    (apply_updates st.1 (adam_update g st.2).1, (adam_update g st.2).2)) st

/-- The state `(params, opt_state)` CASE 1 trains from: the parameters from
`initialize_net_function()` and `opt_state = optimizer.init(params)`. -/
noncomputable def case1_initial_state (net_transform_init : ℕ → ℕ → ℕ → ι → ℝ)
    (example_x : Fin batch_size → Fin 1 → ℝ) : (ι → ℝ) × ScaleByAdamState ι :=
  (initialize_net_function net_transform_init example_x,
   adam_init (initialize_net_function net_transform_init example_x))

/-- The state CASE 2 trains from after its reset cell:
`_, params = initialize_net_function(); opt_state = optimizer.init(params)`. -/
noncomputable def case2_reset_state (net_transform_init : ℕ → ℕ → ℕ → ι → ℝ)
    (example_x : Fin batch_size → Fin 1 → ℝ) : (ι → ℝ) × ScaleByAdamState ι :=
  (initialize_net_function net_transform_init example_x,
   adam_init (initialize_net_function net_transform_init example_x))

end Network

/-! ## Claim theorems -/

/-- Claim C4: for all parameters, optimizer state and batch arrays `x`, `y`,
`update` returns exactly the pair obtained by computing the gradient of the
loss at `(params, x, y)`, transforming it with the optimizer's update rule
against the current optimizer state, and applying the resulting updates to
the parameters; the returned optimizer state is the one produced by that same
optimizer transformation. -/
theorem claim_C4_update_is_grad_then_optimize {ι : Type}
    (grad_loss_function : (ι → ℝ) → (m : ℕ) → (Fin m → ℝ) → (Fin m → ℝ) → ι → ℝ)
    (params : ι → ℝ) (opt_state : ScaleByAdamState ι)
    (m : ℕ) (x y : Fin m → ℝ) :
    update grad_loss_function params opt_state x y =
      (apply_updates params (adam_update (grad_loss_function params m x y) opt_state).1,
       (adam_update (grad_loss_function params m x y) opt_state).2) :=
  rfl

/-- Claim C5: for all parameters and batch arrays `x`, `y_true`,
`loss_function` equals the mean squared error: the average over the batch of
the squared difference between `y_true` and the network's prediction
`net_transform.apply(params, x)`. -/
theorem claim_C5_loss_is_mse {ι : Type}
    (net_apply : (ι → ℝ) → (m : ℕ) → (Fin m → ℝ) → Fin m → ℝ)
    (params : ι → ℝ) (m : ℕ) (x y_true : Fin m → ℝ) :
    loss_function net_apply params m x y_true =
      (∑ i, (y_true i - net_apply params m x i) ^ 2) / m :=
  rfl

/-- Claim C8: on every partition, `dask_predict_wrapper` returns a flat array
with exactly one prediction per row (length `m` for an `m`-row partition),
computed by applying the network with the supplied parameters to the
partition's `scaled_x` column, and not to the raw `x` column: the result is
invariant under changing the `x` (and `y`) columns while keeping `scaled_x`. -/
theorem claim_C8_predict_wrapper_uses_scaled_x {ι : Type}
    (net_apply : (ι → ℝ) → (m : ℕ) → (Fin m → ℝ) → Fin m → ℝ)
    (params : ι → ℝ) (m : ℕ) (xcol scol ycol : Fin m → ℝ) :
    dask_predict_wrapper net_apply ⟨m, xcol, scol, ycol⟩ params = net_apply params m scol ∧
    (List.ofFn (dask_predict_wrapper net_apply ⟨m, xcol, scol, ycol⟩ params)).length = m ∧
    (∀ xcol2 ycol2 : Fin m → ℝ,
      dask_predict_wrapper net_apply ⟨m, xcol2, scol, ycol2⟩ params =
        dask_predict_wrapper net_apply ⟨m, xcol, scol, ycol⟩ params) :=
  ⟨rfl, List.length_ofFn _, fun _ _ => rfl⟩

/-- Claim C9: `initialize_net_function` is deterministic in the parameters it
returns — the PRNG key is fixed at 42 and the example input contributes only
its shape — so any two calls agree; consequently the state CASE 2 resets to
equals the state CASE 1 started from: identical initial parameters and a
freshly initialized (all-zero) optimizer state. -/
theorem claim_C9_init_deterministic {ι : Type}
    (net_transform_init : ℕ → ℕ → ℕ → ι → ℝ)
    (example_x1 example_x2 : Fin batch_size → Fin 1 → ℝ) :
    initialize_net_function net_transform_init example_x1 =
      initialize_net_function net_transform_init example_x2 ∧
    case2_reset_state net_transform_init example_x2 =
      case1_initial_state net_transform_init example_x1 :=
  ⟨rfl, rfl⟩

/-- Claim C6: the dataset is an in-memory table of `(x, sin x)` pairs: the
`x` column holds 50 evenly spaced points from 0 to `2π` inclusive (first
point 0, last point `2π`, constant spacing `2π / 49`), and every row's `y`
value is the sine of that row's `x` value. -/
theorem claim_C6_dataset_is_sine_table :
    (∀ i : Fin num_points, (df_all i).2 = Real.sin (df_all i).1) ∧
    (df_all ⟨0, by decide⟩).1 = 0 ∧
    (df_all ⟨49, by decide⟩).1 = 2 * Real.pi ∧
    (∀ i : Fin 49, (df_all i.succ).1 - (df_all i.castSucc).1 = 2 * Real.pi / 49) := by
  refine ⟨fun i => rfl, ?_, ?_, fun i => ?_⟩
  · simp [df_all, x_data, np_linspace, num_points]
  · show (0 : ℝ) + (49 : ℕ) * (2 * Real.pi - 0) / ((50 : ℝ) - 1) = 2 * Real.pi
    norm_num
  · show ((0 : ℝ) + (i.succ : ℕ) * (2 * Real.pi - 0) / ((50 : ℝ) - 1)) -
        ((0 : ℝ) + (i.castSucc : ℕ) * (2 * Real.pi - 0) / ((50 : ℝ) - 1)) = 2 * Real.pi / 49
    rw [Fin.val_succ, Fin.coe_castSucc]
    push_cast
    ring

/-- Claim C7: the train/validation split partitions the 50-row table.  The
sampled train label set `S` has `round(0.8 * 50) = 40` elements (the library
contract of `sample(frac=0.8)`), the validation frame keeps exactly the
unsampled labels, every row belongs to exactly one of the two subsets, and
their disjoint union is the full table: 40 train rows, 10 validation rows. -/
theorem claim_C7_split_partitions_table (S : Finset (Fin num_points))
    (hS : S.card = pandas_sample_size num_points (4 / 5)) :
    Disjoint S (df_validation_index S) ∧
    S ∪ df_validation_index S = Finset.univ ∧
    (∀ i : Fin num_points,
      (i ∈ S ∧ i ∉ df_validation_index S) ∨ (i ∉ S ∧ i ∈ df_validation_index S)) ∧
    S.card = 40 ∧ (df_validation_index S).card = 10 := by
  have hcard : S.card = 40 := by
    rw [hS]
    norm_num [pandas_sample_size, num_points]
    rfl
  refine ⟨Finset.disjoint_sdiff, Finset.union_sdiff_of_subset (Finset.subset_univ S),
    fun i => ?_, hcard, ?_⟩
  · by_cases h : i ∈ S
    · exact Or.inl ⟨h, by simp [df_validation_index, h]⟩
    · exact Or.inr ⟨h, by simp [df_validation_index, h]⟩
  · rw [df_validation_index, Finset.card_sdiff (Finset.subset_univ S), hcard]
    simp [num_points]

/-- A concrete candidate train label set for the C7 witness:
`{0, ..., 39} ⊆ Fin 50`. -/
def sampled_labels : Finset (Fin num_points) :=
  (Finset.univ : Finset (Fin 40)).map (Fin.castLEEmb (show 40 ≤ num_points by decide))

/-- Witness for C7: `sampled_labels` has the sampled cardinality, and the
theorem's conclusion holds for it. -/
theorem claim_C7_split_partitions_table_witness :
    sampled_labels.card = pandas_sample_size num_points (4 / 5) ∧
    (Disjoint sampled_labels (df_validation_index sampled_labels) ∧
    sampled_labels ∪ df_validation_index sampled_labels = Finset.univ ∧
    (∀ i : Fin num_points,
      (i ∈ sampled_labels ∧ i ∉ df_validation_index sampled_labels) ∨
      (i ∉ sampled_labels ∧ i ∈ df_validation_index sampled_labels)) ∧
    sampled_labels.card = 40 ∧ (df_validation_index sampled_labels).card = 10) := by
  have h : sampled_labels.card = pandas_sample_size num_points (4 / 5) := by
    rw [sampled_labels, Finset.card_map, Finset.card_univ, Fintype.card_fin]
    norm_num [pandas_sample_size, num_points]
    rfl
  exact ⟨h, claim_C7_split_partitions_table _ h⟩

/-- Claim C10: every partition produced by
`dd.from_pandas(·, chunksize=batch_size)` has at most `batch_size = 32` rows
— so every batch handed to `update`, to the gradient computation, or to the
prediction wrapper has at most 32 samples — and the 40 training rows split
into exactly two partitions (of 32 and 8 rows); the 10 validation rows form
one partition. -/
theorem claim_C10_partition_sizes (n s : ℕ)
    (hs : s ∈ from_pandas_partition_sizes n batch_size) :
    s ≤ batch_size ∧
    from_pandas_partition_sizes 40 batch_size = [32, 8] ∧
    (from_pandas_partition_sizes 40 batch_size).length = 2 ∧
    from_pandas_partition_sizes 10 batch_size = [10] := by
  refine ⟨?_, by decide, by decide, by decide⟩
  rcases List.mem_append.1 hs with h | h
  · exact le_of_eq (List.eq_of_mem_replicate h)
  · by_cases hz : n % batch_size = 0
    · simp [hz] at h
    · simp only [hz, if_false, List.mem_singleton] at h
      subst h
      exact le_of_lt (Nat.mod_lt _ (by norm_num [batch_size]))

/-- Witness for C10: the size-32 partition of the 40-row training frame. -/
theorem claim_C10_partition_sizes_witness :
    32 ∈ from_pandas_partition_sizes 40 batch_size ∧
    (32 ≤ batch_size ∧
     from_pandas_partition_sizes 40 batch_size = [32, 8] ∧
     (from_pandas_partition_sizes 40 batch_size).length = 2 ∧
     from_pandas_partition_sizes 10 batch_size = [10]) :=
  ⟨by decide, claim_C10_partition_sizes 40 32 (by decide)⟩

/-- Unfolding of the CASE 1 nested loop: iterating the per-epoch fold `n`
times from any state is the single left fold over `n` concatenated copies of
the batch list. -/
theorem case1_train_eq_foldl {ι : Type}
    (grad_loss_function : (ι → ℝ) → (m : ℕ) → (Fin m → ℝ) → (Fin m → ℝ) → ι → ℝ)
    (batches : List Partition) :
    ∀ (n : ℕ) (st : (ι → ℝ) × ScaleByAdamState ι),
      case1_train grad_loss_function batches n st =
        List.foldl (case1_process_partition grad_loss_function) st
          (List.flatten (List.replicate n batches)) := by
  intro n
  induction n with
  | zero => intro st; rfl
  | succ k ih =>
    intro st
    show case1_train grad_loss_function batches k
        (case1_epoch grad_loss_function batches st) = _
    rw [ih]
    simp [case1_epoch, List.replicate_succ, List.foldl_append]

/-- Claim C3: after CASE 1's training loop, the parameters and optimizer
state equal the left fold of the update step over the training batches taken
one at a time in partition order within each of the 200 epochs, starting from
the freshly initialized parameters and optimizer state; each fold step
consumes exactly one partition's `scaled_x` and `y` columns. -/
theorem claim_C3_case1_is_left_fold {ι : Type}
    (grad_loss_function : (ι → ℝ) → (m : ℕ) → (Fin m → ℝ) → (Fin m → ℝ) → ι → ℝ)
    (net_transform_init : ℕ → ℕ → ℕ → ι → ℝ)
    (example_x : Fin batch_size → Fin 1 → ℝ)
    (batches : List Partition) :
    case1_train grad_loss_function batches 200
        (case1_initial_state net_transform_init example_x) =
      List.foldl
        (fun st df => update grad_loss_function st.1 st.2 df.scaled_x df.y)
        (case1_initial_state net_transform_init example_x)
        (List.flatten (List.replicate 200 batches)) :=
  case1_train_eq_foldl grad_loss_function batches 200 _

/-- Claim C1: in every CASE 2 epoch, the per-batch gradients are all taken
with respect to the parameter values the model had at the start of the epoch
(the whole futures list is submitted with `st.1` before any update of the
epoch runs), and the client's `as_completed` loop is exactly the fold that
applies one `optimizer.update` and one `optix.apply_updates` per received
batch gradient — `batches.length` updates in all, whatever the completion
order. -/
theorem claim_C1_case2_gradients_at_epoch_start {ι : Type}
    (grad_loss_function : (ι → ℝ) → (m : ℕ) → (Fin m → ℝ) → (Fin m → ℝ) → ι → ℝ)
    (completion_order : List (ι → ℝ) → List (ι → ℝ))
    (batches : List Partition)
    (st : (ι → ℝ) × ScaleByAdamState ι)
    (hperm : (completion_order (case2_epoch_futures grad_loss_function batches st.1)).Perm
      (case2_epoch_futures grad_loss_function batches st.1)) :
    case2_epoch grad_loss_function completion_order batches st =
      client_aggregate
        (completion_order
          (batches.map (fun df => grad_loss_function st.1 df.m df.scaled_x df.y))) st ∧
    (∀ g ∈ completion_order (case2_epoch_futures grad_loss_function batches st.1),
      ∃ df ∈ batches, g = grad_loss_function st.1 df.m df.scaled_x df.y) ∧
    (completion_order (case2_epoch_futures grad_loss_function batches st.1)).length =
      batches.length := by
  refine ⟨rfl, ?_, ?_⟩
  · intro g hg
    have hmem : g ∈ case2_epoch_futures grad_loss_function batches st.1 := hperm.mem_iff.1 hg
    rw [case2_epoch_futures] at hmem
    obtain ⟨df, hdf, hEq⟩ := List.mem_map.1 hmem
    exact ⟨df, hdf, hEq.symm⟩
  · rw [hperm.length_eq, case2_epoch_futures, List.length_map]

/-! Concrete instantiation used by the C1 witness and the C2 analysis: a
single-leaf parameter pytree (`ι := Unit`), the gradient function that
returns the batch's row count at the leaf, an empty and a one-row partition
(gradients 0 and 1), and the all-zero starting state. -/

noncomputable def grad_by_rows : (Unit → ℝ) → (m : ℕ) → (Fin m → ℝ) → (Fin m → ℝ) → Unit → ℝ :=
  fun _ m _ _ _ => (m : ℝ)

noncomputable def empty_partition : Partition :=
  ⟨0, Fin.elim0, Fin.elim0, Fin.elim0⟩

noncomputable def one_row_partition : Partition :=
  ⟨1, fun _ => 0, fun _ => 0, fun _ => 0⟩

noncomputable def zero_train_state : (Unit → ℝ) × ScaleByAdamState Unit :=
  (fun _ => 0, adam_init (fun _ => 0))

/-- Witness for C1: the identity completion order on a two-partition epoch. -/
theorem claim_C1_case2_gradients_at_epoch_start_witness :
    (id (case2_epoch_futures grad_by_rows [empty_partition, one_row_partition]
        zero_train_state.1)).Perm
      (case2_epoch_futures grad_by_rows [empty_partition, one_row_partition]
        zero_train_state.1) ∧
    (case2_epoch grad_by_rows id [empty_partition, one_row_partition] zero_train_state =
      client_aggregate
        (id ([empty_partition, one_row_partition].map
          (fun df => grad_by_rows zero_train_state.1 df.m df.scaled_x df.y)))
        zero_train_state ∧
    (∀ g ∈ id (case2_epoch_futures grad_by_rows [empty_partition, one_row_partition]
        zero_train_state.1),
      ∃ df ∈ [empty_partition, one_row_partition],
        g = grad_by_rows zero_train_state.1 df.m df.scaled_x df.y) ∧
    (id (case2_epoch_futures grad_by_rows [empty_partition, one_row_partition]
        zero_train_state.1)).length = [empty_partition, one_row_partition].length) :=
  ⟨List.Perm.refl _,
   claim_C1_case2_gradients_at_epoch_start grad_by_rows id
     [empty_partition, one_row_partition] zero_train_state (List.Perm.refl _)⟩

/-- The Adam step count after folding the client update over a gradient list
grows by exactly the list length: one optimizer update per gradient. -/
theorem foldl_client_update_count {ι : Type} :
    ∀ (gs : List (ι → ℝ)) (st : (ι → ℝ) × ScaleByAdamState ι),
      (gs.foldl case2_client_update st).2.count = st.2.count + gs.length := by
  intro gs
  induction gs with
  | nil => intro st; rfl
  | cons g t ih =>
    intro st
    rw [List.foldl_cons, ih]
    have h1 : (case2_client_update st g).2.count = st.2.count + 1 := rfl
    rw [h1, List.length_cons]
    omega

/-- Claim C2, corrected: what is independent of the completion order is the
shape of the aggregation — any two completion orders of the same epoch apply
the same number of optimizer updates, namely one per batch, so the final Adam
step count is the epoch-start count plus the number of batches either way.
The final parameters and moment estimates themselves are order-dependent
(see the counterexample). -/
theorem claim_C2_update_count_order_independent {ι : Type}
    (grad_loss_function : (ι → ℝ) → (m : ℕ) → (Fin m → ℝ) → (Fin m → ℝ) → ι → ℝ)
    (c1 c2 : List (ι → ℝ) → List (ι → ℝ))
    (batches : List Partition)
    (st : (ι → ℝ) × ScaleByAdamState ι)
    (h1 : (c1 (case2_epoch_futures grad_loss_function batches st.1)).Perm
      (case2_epoch_futures grad_loss_function batches st.1))
    (h2 : (c2 (case2_epoch_futures grad_loss_function batches st.1)).Perm
      (case2_epoch_futures grad_loss_function batches st.1)) :
    (c1 (case2_epoch_futures grad_loss_function batches st.1)).length =
      (c2 (case2_epoch_futures grad_loss_function batches st.1)).length ∧
    (case2_epoch grad_loss_function c1 batches st).2.count =
      (case2_epoch grad_loss_function c2 batches st).2.count ∧
    (case2_epoch grad_loss_function c1 batches st).2.count =
      st.2.count + batches.length := by
  have hfut : (case2_epoch_futures grad_loss_function batches st.1).length = batches.length := by
    rw [case2_epoch_futures, List.length_map]
  refine ⟨h1.length_eq.trans h2.length_eq.symm, ?_, ?_⟩
  · simp only [case2_epoch]
    rw [foldl_client_update_count, foldl_client_update_count, h1.length_eq, h2.length_eq]
  · simp only [case2_epoch]
    rw [foldl_client_update_count, h1.length_eq, hfut]

/-- Witness for the corrected C2: identity versus reversal as the two
completion orders of a two-partition epoch. -/
theorem claim_C2_update_count_order_independent_witness :
    ((id (case2_epoch_futures grad_by_rows [empty_partition, one_row_partition]
        zero_train_state.1)).Perm
      (case2_epoch_futures grad_by_rows [empty_partition, one_row_partition]
        zero_train_state.1) ∧
     (List.reverse (case2_epoch_futures grad_by_rows [empty_partition, one_row_partition]
        zero_train_state.1)).Perm
      (case2_epoch_futures grad_by_rows [empty_partition, one_row_partition]
        zero_train_state.1)) ∧
    ((id (case2_epoch_futures grad_by_rows [empty_partition, one_row_partition]
        zero_train_state.1)).length =
      (List.reverse (case2_epoch_futures grad_by_rows [empty_partition, one_row_partition]
        zero_train_state.1)).length ∧
    (case2_epoch grad_by_rows id [empty_partition, one_row_partition] zero_train_state).2.count =
      (case2_epoch grad_by_rows List.reverse [empty_partition, one_row_partition]
        zero_train_state).2.count ∧
    (case2_epoch grad_by_rows id [empty_partition, one_row_partition] zero_train_state).2.count =
      zero_train_state.2.count + [empty_partition, one_row_partition].length) :=
  ⟨⟨List.Perm.refl _, List.reverse_perm _⟩,
   claim_C2_update_count_order_independent grad_by_rows id List.reverse
     [empty_partition, one_row_partition] zero_train_state
     (List.Perm.refl _) (List.reverse_perm _)⟩

/-- Counterexample to C2 as stated: for the same set of per-batch gradients
(0 and 1, both valid completion orders of the same submitted futures), the
completion order changes the state produced by the client's aggregation —
after the epoch, Adam's first-moment estimate is `0.1` in submission order
but `0.09` in reversed order, so the final parameters-and-optimizer-state
pair differs between the two orders. -/
theorem claim_C2_counterexample :
    (List.reverse (case2_epoch_futures grad_by_rows [empty_partition, one_row_partition]
        zero_train_state.1)).Perm
      (case2_epoch_futures grad_by_rows [empty_partition, one_row_partition]
        zero_train_state.1) ∧
    case2_epoch grad_by_rows List.reverse [empty_partition, one_row_partition]
        zero_train_state ≠
      case2_epoch grad_by_rows id [empty_partition, one_row_partition] zero_train_state := by
  refine ⟨List.reverse_perm _, fun h => ?_⟩
  have hmu := congrArg (fun st => st.2.mu ()) h
  simp only [case2_epoch, case2_epoch_futures, dask_compute_grads_one_partition_wrapper,
    compute_grads, grad_by_rows, empty_partition, one_row_partition, zero_train_state,
    List.map_cons, List.map_nil, List.reverse_cons, List.reverse_nil, List.nil_append,
    List.cons_append, id_eq, List.foldl_cons, List.foldl_nil, case2_client_update,
    adam_update, scale_by_adam_update, update_moment, adam_init, adam_b1,
    Nat.cast_zero, Nat.cast_one] at hmu
  norm_num at hmu

end JaxDaskNotebook
